import Mathlib

/-!
Shallow embedding of the floor-plan layout engine of this repository
(`src/scripts/maps/floor_generator.py`), together with theorems checking the
statements of the specification about it.

Conventions of the embedding:
* Python ints are modelled as `Int`, Python floats as `ℚ` (the source only
  performs exact decimal/rational arithmetic on them).
* Python `int(x)` (truncation toward zero) is modelled by `pyInt`.
* Python dictionaries holding room/printer records are modelled as structures;
  optional keys (`.get(k, default)`) become `Option` fields.
* The source raises `ZeroDivisionError` when the pixel width
  `grid_cols * grid_size` is zero (at `int(output_width * (H / W))`,
  floor_generator.py line 74); `generate_floor_svg` is therefore modelled as
  returning `Option`, with `none` exactly on that event.
* The SVG output is modelled structurally (geometry and strings of the emitted
  elements) rather than as serialized XML text.
-/

/-- Python `int(...)` applied to a float/rational: truncation toward zero. -/
def pyInt (q : ℚ) : Int := if q < 0 then -(Int.floor (-q)) else Int.floor q

/-- Models Python `str.split()` (no separator argument): split on runs of
whitespace and return the non-empty chunks.  Char-list worker; `acc` holds the
current word reversed. -/
def pySplitChars : List Char → List Char → List String
  | [], acc => if acc.isEmpty then [] else [String.mk acc.reverse]
  | c :: cs, acc =>
    if c.isWhitespace then
      if acc.isEmpty then pySplitChars cs []
      else String.mk acc.reverse :: pySplitChars cs []
    else pySplitChars cs (c :: acc)

/-- Python `label.split()`. -/
def pySplit (s : String) : List String := pySplitChars s.toList []

/-- Python `max(len(word) for word in words) if words else 0`
(floor_generator.py line 108). -/
def maxWordLen (ws : List String) : Nat := ws.foldl (fun m w => max m w.length) 0

/-- ROOM_COLORS table (floor_generator.py lines 12-23), in source order. -/
def ROOM_COLORS : List (String × String) :=
  [("lab", "#FF9800"), ("classroom", "#2196F3"), ("office", "#F44336"),
   ("library", "#9C27B0"), ("corridor", "#E0E0E0"), ("restroom", "#4CAF50"),
   ("stairs", "#9E9E9E"), ("elevator", "#607D8B"), ("storage", "#757575"),
   ("lounge", "#00BCD4")]

/-- ROOM_TYPE_NAMES table (floor_generator.py lines 25-36). -/
def ROOM_TYPE_NAMES : List (String × String) :=
  [("lab", "Computer Lab"), ("classroom", "Lecture Hall"),
   ("office", "Faculty Office"), ("library", "Library"),
   ("corridor", "Corridor"), ("restroom", "Restroom"), ("stairs", "Stairs"),
   ("elevator", "Elevator"), ("storage", "Storage"), ("lounge", "Lounge")]

/-- Python `ROOM_COLORS.get(room_type, default)` (line 96), with the default
fill `#FFFFFF` for unknown types. -/
def get_room_color (room_type : String) : String :=
  (List.lookup room_type ROOM_COLORS).getD "#FFFFFF"

/-- Text color choice (lines 98-101): dark text on the light backgrounds. -/
def get_text_color (room_type : String) : String :=
  if room_type = "corridor" ∨ room_type = "lounge" then "#1a1a1a" else "white"

/-- Function `should_rotate_text` (floor_generator.py lines 103-110). -/
def should_rotate_text (label : String) (w h : Int) : Bool :=
  if label = "" then false
  else
    let max_word_len : Int := (maxWordLen (pySplit label) : Int)
    let can_fit_horizontal := decide (max_word_len * 20 < w - 40)
    !can_fit_horizontal && decide (w < h)

/-- A room record of the input spec (required keys `id`, `grid_x`, `grid_y`,
`grid_w`, `grid_h`; `label` defaults to the empty string and `type` to
corridor via `.get`). -/
structure RoomRec where
  id : String
  grid_x : Int
  grid_y : Int
  grid_w : Int
  grid_h : Int
  label : String
  type : Option String
deriving DecidableEq

/-- A printer record (`room` is a required key in the source; `grid_rx`, `grid_ry`,
`label` are optional). -/
structure PrinterRec where
  id : String
  room : String
  grid_rx : Option ℚ
  grid_ry : Option ℚ
  label : Option String
deriving DecidableEq

/-- The top-level floor specification dictionary. -/
structure FloorSpec where
  grid_size : Option Int
  grid_cols : Option Int
  grid_rows : Option Int
  rooms : List RoomRec
  printers : List PrinterRec
deriving DecidableEq

/-- A room converted to pixel space (floor_generator.py lines 83-92). -/
structure RoomData where
  id : String
  x : Int
  y : Int
  w : Int
  h : Int
  label : String
  type : String
deriving DecidableEq

/-- Python `r.get(type key, corridor default)`: the type tag with the corridor default. -/
def room_type_of (r : RoomRec) : String := r.type.getD "corridor"

/-- Grid-to-pixel conversion of one room record (lines 84-92). -/
def room_data (grid_size : Int) (r : RoomRec) : RoomData :=
  { id := r.id
    x := r.grid_x * grid_size
    y := r.grid_y * grid_size
    w := r.grid_w * grid_size
    h := r.grid_h * grid_size
    label := r.label
    type := room_type_of r }

/-- One step of the dict insertion keyed by room id: Python dict assignment keeps
the position of the first insertion and the value of the last. -/
def insert_room_data (acc : List RoomData) (rd : RoomData) : List RoomData :=
  if acc.any (fun a => a.id = rd.id) then
    acc.map (fun a => if a.id = rd.id then rd else a)
  else acc ++ [rd]

/-- The `room_by_id` dictionary (lines 82-93), as its ordered entry list. -/
def build_room_by_id (grid_size : Int) (rooms : List RoomRec) : List RoomData :=
  rooms.foldl (fun acc r => insert_room_data acc (room_data grid_size r)) []

/-- Python `room_by_id.get(key)`: dictionary access. -/
def room_lookup (l : List RoomData) (key : String) : Option RoomData :=
  l.find? (fun rd => rd.id = key)

/-- Function `printer_pos` (floor_generator.py lines 112-124): position of a printer,
`(0, 0)` when the referenced room id is unknown, defaults rx = ry = 0.5. -/
def printer_pos (room_list : List RoomData) (p : PrinterRec) : ℚ × ℚ :=
  match room_lookup room_list p.room with
  | none => (0, 0)
  | some room =>
    let rx := p.grid_rx.getD (0.5 : ℚ)
    let ry := p.grid_ry.getD (0.5 : ℚ)
    ((room.x : ℚ) + rx * (room.w : ℚ), (room.y : ℚ) + ry * (room.h : ℚ))

/-- The word-wrap heuristic of the multi-line branch (lines 180-224), keyed to
the word count.  `estimated_width` is `len(label) * 20` for the raw label and
`available_width` is `room_width - 80`. -/
def compute_split_lines (words : List String) (estimated_width available_width : Int) :
    List (List String) :=
  match words with
  | [w0, w1] =>
    if (w0.length : Int) * 20 > available_width ∨ (w1.length : Int) * 20 > available_width then
      [[w0], [w1]]
    else if estimated_width > available_width then [[w0], [w1]]
    else [[w0, w1]]
  | [w0, w1, w2] => [[w0], [w1], [w2]]
  | [w0, w1, w2, w3] =>
    if ((w0 ++ " " ++ w1).length : Int) * 20 ≤ available_width ∧
       ((w2 ++ " " ++ w3).length : Int) * 20 ≤ available_width then
      [[w0, w1], [w2, w3]]
    else [[w0], [w1, w2], [w3]]
  | ws =>
    if ws.length ≤ 6 then
      let mid := ws.length / 2
      let line1_text := String.intercalate " " (ws.take mid)
      let line2_text := String.intercalate " " (ws.drop mid)
      if (line1_text.length : Int) * 20 ≤ available_width ∧
         (line2_text.length : Int) * 20 ≤ available_width then
        [ws.take mid, ws.drop mid]
      else
        let third := ws.length / 3
        [ws.take third, (ws.drop third).take third, ws.drop (2 * third)]
    else
      let quarter := ws.length / 4
      if quarter > 0 then
        [ws.take quarter, (ws.drop quarter).take quarter,
         (ws.drop (2 * quarter)).take quarter, ws.drop (3 * quarter)]
      else [ws]

/-- Vertical layout parameters of the multi-line branch (lines 226-244). -/
structure MultiLayout where
  font_size : ℚ
  line_height : ℚ
  start_y : ℚ
deriving DecidableEq

/-- Computes font size, line height and first-baseline y for a multi-line label
block (lines 226-244). -/
def multi_layout (room_y room_h : Int) (num_lines : Nat) : MultiLayout :=
  let line_height : ℚ := 45
  let font_size : ℚ := 40
  let total_height : ℚ := ((num_lines : ℚ) - 1) * line_height
  let available_height : ℚ := (room_h : ℚ) - 20 - 20
  let fl : ℚ × ℚ :=
    if total_height + font_size > available_height then
      let f : ℚ := (max (24 : Int) (pyInt ((available_height - total_height) / (num_lines : ℚ))) : Int)
      (f, f + 5)
    else (font_size, line_height)
  let font_size := fl.1
  let line_height := fl.2
  let start_y : ℚ := (room_y : ℚ) + 20 + font_size / 2
  let total_height : ℚ := ((num_lines : ℚ) - 1) * line_height
  let start_y :=
    if total_height < available_height then
      (room_y : ℚ) + 20 + (available_height - total_height) / 2 + font_size / 2
    else start_y
  { font_size := font_size, line_height := line_height, start_y := start_y }

/-- The emission loop over the split lines (lines 246-259): a line at index `i`
is placed at `start_y + i * line_height` and the loop `break`s at the first
line whose baseline plus half the font size passes `bottom_limit`
(`room_y + room_h - 20`). -/
def emit_lines_go (start_y line_height font_size bottom_limit : ℚ) :
    Nat → List String → List (ℚ × String)
  | _, [] => []
  | i, t :: rest =>
    let y_pos := start_y + (i : ℚ) * line_height
    if y_pos + font_size / 2 > bottom_limit then []
    else (y_pos, t) :: emit_lines_go start_y line_height font_size bottom_limit (i + 1) rest

/-- Emitted `(baseline y, text)` pairs of a multi-line label. -/
def emit_lines (start_y line_height font_size bottom_limit : ℚ) (ls : List String) :
    List (ℚ × String) :=
  emit_lines_go start_y line_height font_size bottom_limit 0 ls

/-- Font size of the single-line branch (lines 262-281). -/
def single_line_font_size (w h : Int) (label_len : Nat) : Int :=
  let font_size : Int := 40
  let max_font_width : ℚ := (w : ℚ) - 20 * 2
  let max_font_height : ℚ := (h : ℚ) - 20 * 2
  if w < 150 ∨ h < 150 then
    let adjusted := min (min font_size (pyInt (max_font_width / ((label_len : ℚ) * (0.6 : ℚ)))))
      (pyInt (max_font_height * (0.8 : ℚ)))
    if adjusted < 20 then 20 else adjusted
  else
    let estimated_text_width : ℚ := (label_len : ℚ) * ((font_size : ℚ) * (0.6 : ℚ))
    let adjusted :=
      if estimated_text_width > max_font_width then
        pyInt (max_font_width / ((label_len : ℚ) * (0.6 : ℚ)))
      else font_size
    if (adjusted : ℚ) > max_font_height then pyInt (max_font_height * (0.8 : ℚ))
    else adjusted

/-- Vertical position of the single-line text (lines 283-288): start from the
room center, clamp to the top margin, then clamp to the bottom margin. -/
def single_line_text_y (y h : Int) (font_size : Int) : ℚ :=
  let f : ℚ := (font_size : ℚ)
  let cy : ℚ := (y : ℚ) + (h : ℚ) / 2
  let ty := if cy - f / 2 < (y : ℚ) + 20 then (y : ℚ) + 20 + f / 2 else cy
  if ty + f / 2 > (y : ℚ) + (h : ℚ) - 20 then (y : ℚ) + (h : ℚ) - 20 - f / 2 else ty

/-- The text layout produced for one room (lines 150-295). -/
inductive LabelRender where
  | noLabel : LabelRender
  | rotated : ℚ → ℚ → String → LabelRender
  | multi : ℚ → List (ℚ × String) → LabelRender
  | single : ℚ → ℚ → Int → String → LabelRender
deriving DecidableEq

/-- Label layout of one pixel-space room, following the branch structure of
floor_generator.py lines 126-295: nothing for an empty label, else rotated /
multi-line (with the truncation of the emission loop) / single line. -/
def render_room_label (r : RoomData) : LabelRender :=
  if r.label = "" then LabelRender.noLabel
  else
    let cx : ℚ := (r.x : ℚ) + (r.w : ℚ) / 2
    let cy : ℚ := (r.y : ℚ) + (r.h : ℚ) / 2
    let available_width : Int := r.w - 80
    let words := pySplit r.label
    let estimated_width : Int := (r.label.length : Int) * 20
    if should_rotate_text r.label r.w r.h then LabelRender.rotated cx cy r.label
    else if estimated_width > available_width ∧ 1 < words.length then
      let lines := compute_split_lines words estimated_width available_width
      let layout := multi_layout r.y r.h lines.length
      let texts := lines.map (fun lw => String.intercalate " " lw)
      LabelRender.multi layout.font_size
        (emit_lines layout.start_y layout.line_height layout.font_size
          ((r.y : ℚ) + (r.h : ℚ) - 20) texts)
    else
      let f := single_line_font_size r.w r.h r.label.length
      LabelRender.single cx (single_line_text_y r.y r.h f) f r.label

/-- The filled rectangle emitted for a room (every branch of lines 126-149
appends it, labeled or not). -/
structure RectElem where
  x : Int
  y : Int
  w : Int
  h : Int
  fill : String
deriving DecidableEq

/-- Rendering of one room: its rectangle plus its label layout. -/
structure RoomRender where
  rect : RectElem
  label : LabelRender
deriving DecidableEq

/-- Renders one room (lines 126-297).  The source draws the rectangle in all
branches (unlabeled corridors and unlabeled typed rooms included) and adds text
only when a label is present. -/
def render_room (r : RoomData) : RoomRender :=
  { rect := { x := r.x, y := r.y, w := r.w, h := r.h, fill := get_room_color r.type }
    label := render_room_label r }

/-- Rendering of one printer icon (lines 302-325): icon anchor position and the
caption given by the label key with the printer id as default. -/
structure PrinterRender where
  x : ℚ
  y : ℚ
  caption : String
deriving DecidableEq

/-- Renders one printer. -/
def render_printer (room_list : List RoomData) (p : PrinterRec) : PrinterRender :=
  let pos := printer_pos room_list p
  { x := pos.1, y := pos.2, caption := p.label.getD p.id }

/-- Function `get_ordinal` (floor_generator.py lines 336-341).  Python `%` on ints
agrees with `Int.emod`. -/
def get_ordinal (n : Int) : String :=
  let suffix :=
    if 10 ≤ n.emod 100 ∧ n.emod 100 ≤ 20 then "th"
    else if n.emod 10 = 1 then "st"
    else if n.emod 10 = 2 then "nd"
    else if n.emod 10 = 3 then "rd"
    else "th"
  toString n ++ suffix

/-- The title (lines 334-350): emitted only under Python truthiness of both
arguments (`if building_name and floor_number:`), so `none`, the empty string
and floor number `0` all suppress it. -/
def title_text (building_name : Option String) (floor_number : Option Int) : Option String :=
  match building_name, floor_number with
  | some b, some n =>
    if b ≠ "" ∧ n ≠ 0 then some (b ++ " - " ++ get_ordinal n ++ " Floor") else none
  | _, _ => none

/-- Set `unique_room_types` (lines 352-357): the room types of the rooms of the
input (a missing type counts as corridor) that have a color; as a
duplicate-free list. -/
def unique_room_types (rooms : List RoomRec) : List String :=
  ((rooms.map room_type_of).filter (fun t => (List.lookup t ROOM_COLORS).isSome)).dedup

/-- List `legend_order` (line 360). -/
def legend_order : List String :=
  ["lab", "classroom", "office", "library", "lounge", "restroom", "stairs",
   "elevator", "storage", "corridor"]

/-- List `sorted_types` (line 361). -/
def sorted_types (rooms : List RoomRec) : List String :=
  legend_order.filter (fun t => (unique_room_types rooms).contains t)

/-- Count `num_rows = (len(sorted_types) + LEGEND_COLS - 1) // LEGEND_COLS`
(line 367), the ceiling of a division by 3. -/
def legend_num_rows (n : Nat) : Nat := (n + 3 - 1) / 3

/-- Python `ROOM_TYPE_NAMES.get(room_type, room_type.title())` (line 392).  The
`title()` default is unreachable for legend entries, since every type of
`legend_order` is a key of `ROOM_TYPE_NAMES`; it is approximated by
`String.capitalize`. -/
def display_name (t : String) : String := (List.lookup t ROOM_TYPE_NAMES).getD t.capitalize

/-- One legend entry: colored square plus display name (lines 377-405). -/
structure LegendEntry where
  square_x : ℚ
  square_y : ℚ
  color : String
  text_x : ℚ
  text_y : ℚ
  name : String
deriving DecidableEq

/-- Legend entry `i` for room type `t` (lines 377-405): 3-column grid,
row height 65, squares of size 50 with a 20px text gap, starting 40px below
the 100px title band. -/
def legend_entry (W H : Int) (i : Nat) (t : String) : LegendEntry :=
  let row := i / 3
  let col := i % 3
  let item_width : ℚ := (W : ℚ) / 3
  let col_left : ℚ := (col : ℚ) * item_width
  let col_center_x : ℚ := col_left + item_width / 2
  let square_x : ℚ := col_center_x - (50 + 20 + 150) / 2
  let text_x : ℚ := square_x + 50 + 20
  let y_pos : ℚ := (H : ℚ) + 100 + 40 + (row : ℚ) * 65
  { square_x := square_x
    square_y := y_pos - 50 / 2
    color := get_room_color t
    text_x := text_x
    text_y := y_pos
    name := display_name t }

/-- The legend block for the given ordered type list. -/
def legend_entries (W H : Int) (ts : List String) : List LegendEntry :=
  ts.enum.map (fun p => legend_entry W H p.1 p.2)

/-- Pixel canvas width `W = GRID_COLS * GRID_SIZE` (lines 59-63). -/
def canvas_w (spec : FloorSpec) : Int :=
  (spec.grid_cols.getD 24) * (spec.grid_size.getD 100)

/-- Pixel canvas height `H = GRID_ROWS * GRID_SIZE` (lines 59-64). -/
def canvas_h (spec : FloorSpec) : Int :=
  (spec.grid_rows.getD 14) * (spec.grid_size.getD 100)

/-- Height `LEGEND_HEIGHT = num_rows * LEGEND_ITEM_HEIGHT + 40` (line 368). -/
def legend_height (spec : FloorSpec) : Int :=
  (legend_num_rows (sorted_types spec.rooms).length : Int) * 65 + 40

/-- Height `EXTRA_HEIGHT = TITLE_HEIGHT + LEGEND_HEIGHT` (line 369). -/
def extra_height (spec : FloorSpec) : Int := 100 + legend_height spec

/-- Height `diagram_height = int(output_width * (H / W))` (line 74). -/
def diagram_height (spec : FloorSpec) (output_width : Int) : Int :=
  pyInt ((output_width : ℚ) * ((canvas_h spec : ℚ) / (canvas_w spec : ℚ)))

/-- The final declared output height (line 411):
`out_h = diagram_height + int(output_width * (EXTRA_HEIGHT / W))`. -/
def out_height (spec : FloorSpec) (output_width : Int) : Int :=
  diagram_height spec output_width +
    pyInt ((output_width : ℚ) * ((extra_height spec : ℚ) / (canvas_w spec : ℚ)))

/-- The assembled vector document (viewBox, declared size, elements). -/
structure FloorDoc where
  view_w : Int
  view_h : Int
  out_w : Int
  out_h : Int
  room_elems : List RoomRender
  printer_elems : List PrinterRender
  title : Option String
  legend : List LegendEntry
deriving DecidableEq

/-- Function `generate_floor_svg` (floor_generator.py lines 47-444).  Returns `none`
exactly when `W = grid_cols * grid_size` is zero, where the source raises
`ZeroDivisionError` at `int(output_width * (H / W))` (line 74); every other
input yields a document. -/
def generate_floor_svg (spec : FloorSpec) (output_width : Int) (include_printers : Bool)
    (building_name : Option String) (floor_number : Option Int) : Option FloorDoc :=
  if canvas_w spec = 0 then none
  else
    let room_list := build_room_by_id (spec.grid_size.getD 100) spec.rooms
    some
      { view_w := canvas_w spec
        view_h := canvas_h spec + extra_height spec
        out_w := output_width
        out_h := out_height spec output_width
        room_elems := room_list.map render_room
        printer_elems :=
          (if include_printers then spec.printers else []).map (render_printer room_list)
        title := title_text building_name floor_number
        legend := legend_entries (canvas_w spec) (canvas_h spec) (sorted_types spec.rooms) }

/-- Spec-side reading for the refinement claims about the legend: the distinct
room types present in the rooms list of the input (a record without a type counting
as corridor), with no filtering by the color table. -/
def distinct_room_types (rooms : List RoomRec) : List String :=
  (rooms.map room_type_of).dedup

/-- Spec-side reading of the ordinal-suffix rule: `th` for residues 10-20
mod 100, else `st`/`nd`/`rd` for 1/2/3 mod 10, else `th`. -/
def spec_ordinal_suffix (n : Int) : String :=
  if 10 ≤ n.emod 100 ∧ n.emod 100 ≤ 20 then "th"
  else if n.emod 10 = 1 then "st"
  else if n.emod 10 = 2 then "nd"
  else if n.emod 10 = 3 then "rd"
  else "th"

/-! ### Concrete fixtures used by witnesses and counterexamples -/

/-- A 150x120 px room labeled "Administrative Office" (spec fixture for the
multi-line rule). -/
def admin_office_room : RoomData :=
  { id := "a1", x := 0, y := 0, w := 150, h := 120, label := "Administrative Office",
    type := "office" }

/-- A 150x130 px room labeled "Administrative Office": its split computes two
lines but only one fits above the bottom margin. -/
def trunc_office_room : RoomData :=
  { id := "a2", x := 0, y := 0, w := 150, h := 130, label := "Administrative Office",
    type := "office" }

/-- A 150x150 px room with the one-word ten-character label "Laboratory". -/
def square_lab_room : RoomData :=
  { id := "a3", x := 0, y := 0, w := 150, h := 150, label := "Laboratory", type := "lab" }

/-- A 100x300 px room with the long one-word label "Administrative". -/
def tall_narrow_room : RoomData :=
  { id := "a4", x := 0, y := 0, w := 100, h := 300, label := "Administrative",
    type := "office" }

/-- A room record with the unrecognized type tag "kitchen". -/
def kitchen_room : RoomRec :=
  { id := "k1", grid_x := 0, grid_y := 0, grid_w := 1, grid_h := 1, label := "",
    type := some "kitchen" }

/-- A spec (default grid) whose only room has the unrecognized type "kitchen". -/
def kitchen_spec : FloorSpec :=
  { grid_size := none, grid_cols := none, grid_rows := none, rooms := [kitchen_room],
    printers := [] }

/-- A spec with `grid_cols = 0`, making the pixel width zero. -/
def zero_cols_spec : FloorSpec :=
  { grid_size := none, grid_cols := some 0, grid_rows := none, rooms := [], printers := [] }

/-- An empty spec using all grid defaults. -/
def plain_spec : FloorSpec :=
  { grid_size := none, grid_cols := none, grid_rows := none, rooms := [], printers := [] }

/-- A pixel-space room used by the printer-position witness. -/
def room_fix : RoomData :=
  { id := "r1", x := 100, y := 200, w := 300, h := 400, label := "", type := "office" }

/-- A printer referencing a room id that exists nowhere. -/
def p_missing : PrinterRec :=
  { id := "p1", room := "nowhere", grid_rx := none, grid_ry := none, label := none }

/-- A printer in `room_fix` with an explicit relative x and default relative y. -/
def p_found : PrinterRec :=
  { id := "p2", room := "r1", grid_rx := some (0.25 : ℚ), grid_ry := none,
    label := some "P" }

/-- A room record carrying no `type` key at all. -/
def untyped_room : RoomRec :=
  { id := "c1", grid_x := 0, grid_y := 0, grid_w := 2, grid_h := 1, label := "",
    type := none }

/-! ### Helper lemmas -/

/-- Ceiling division by 3 agrees with the `(n + 3 - 1) // 3` of the source. -/
theorem ceil_div_three (k : Nat) : Int.ceil ((k : ℚ) / 3) = ((k + 3 - 1) / 3 : Nat) := by
  have e : k + 3 - 1 = k + 2 := by omega
  rw [e]
  set d := (k + 2) / 3 with hd
  have h1 : 3 * d ≤ k + 2 := by omega
  have h3 : k ≤ 3 * d := by omega
  rw [Int.ceil_eq_iff]
  constructor
  · rw [lt_div_iff₀ (by norm_num : (0:ℚ) < 3)]
    have hq : (3 * d : ℚ) ≤ (k : ℚ) + 2 := by exact_mod_cast h1
    push_cast
    linarith
  · rw [div_le_iff₀ (by norm_num : (0:ℚ) < 3)]
    have hq : (k : ℚ) ≤ 3 * d := by exact_mod_cast h3
    push_cast
    linarith

/-- Unfolding of `should_rotate_text = true` into its propositional condition. -/
theorem should_rotate_true_iff (label : String) (w h : Int) :
    should_rotate_text label w h = true ↔
      label ≠ "" ∧ ¬((maxWordLen (pySplit label) : Int) * 20 < w - 40) ∧ w < h := by
  unfold should_rotate_text
  split
  · simp [*]
  · simp only [Bool.and_eq_true, Bool.not_eq_true', decide_eq_false_iff_not,
      decide_eq_true_eq]
    tauto

/-- The render of a labeled room is rotated exactly when `should_rotate_text` says so. -/
theorem render_rotated_iff (r : RoomData) (hl : r.label ≠ "") :
    (∃ x y s, render_room_label r = LabelRender.rotated x y s) ↔
      should_rotate_text r.label r.w r.h = true := by
  unfold render_room_label
  rw [if_neg hl]
  cases hr : should_rotate_text r.label r.w r.h
  · simp only [Bool.false_eq_true, if_false, iff_false]
    intro ⟨x, y, s, hx⟩
    split at hx <;> exact absurd hx (by simp)
  · simp

/-! ### Claim C1: rotation rule -/

/-- Claim C1: for a room with a non-empty label, the label is rotated 90
degrees iff the estimated width `max_word_len * 20` of the longest word is not
strictly below `room_width - 40` and the room is taller than wide; in
particular a label whose longest word fits is never rotated, regardless of
aspect ratio. -/
theorem claim1_rotation_rule (r : RoomData) (hl : r.label ≠ "") :
    ((∃ x y s, render_room_label r = LabelRender.rotated x y s) ↔
      ¬((maxWordLen (pySplit r.label) : Int) * 20 < r.w - 40) ∧ r.w < r.h) ∧
    ((maxWordLen (pySplit r.label) : Int) * 20 < r.w - 40 →
      ∀ x y s, render_room_label r ≠ LabelRender.rotated x y s) := by
  have key : (∃ x y s, render_room_label r = LabelRender.rotated x y s) ↔
      ¬((maxWordLen (pySplit r.label) : Int) * 20 < r.w - 40) ∧ r.w < r.h := by
    rw [render_rotated_iff r hl, should_rotate_true_iff]
    tauto
  refine ⟨key, fun hfit x y s hcontra => ?_⟩
  exact absurd (key.mp ⟨x, y, s, hcontra⟩) (by tauto)

/-- Witness for C1 at a 100x300 room labeled "Administrative". -/
theorem claim1_rotation_rule_witness :
    ∃ x y s, render_room_label tall_narrow_room = LabelRender.rotated x y s :=
  ((claim1_rotation_rule tall_narrow_room (by decide)).1).mpr (by decide)

/-! ### Claim C2: multi-line split rule -/

/-- A labeled, non-rotated room takes the multi-line branch exactly when the
estimated label width exceeds `room_width - 80` and there are at least two
words. -/
theorem render_multi_iff (r : RoomData) (hl : r.label ≠ "")
    (hrot : should_rotate_text r.label r.w r.h = false) :
    (∃ f em, render_room_label r = LabelRender.multi f em) ↔
      (r.label.length : Int) * 20 > r.w - 80 ∧ 1 < (pySplit r.label).length := by
  unfold render_room_label
  rw [if_neg hl]
  simp only [hrot, Bool.false_eq_true, if_false]
  split
  · next hc => exact ⟨fun _ => hc, fun _ => ⟨_, _, rfl⟩⟩
  · next hc =>
    exact ⟨fun ⟨f, em, hx⟩ => absurd hx (by simp), fun hcond => absurd hcond hc⟩

/-- In the 2-word case the branch condition already forces one word per line. -/
theorem split_two_words (w0 w1 : String) (estW aw : Int) (h : estW > aw) :
    compute_split_lines [w0, w1] estW aw = [[w0], [w1]] := by
  simp only [compute_split_lines]
  split
  · rfl
  · rfl

/-- Three words always go one per line. -/
theorem split_three_words (w0 w1 w2 : String) (estW aw : Int) :
    compute_split_lines [w0, w1, w2] estW aw = [[w0], [w1], [w2]] := by
  simp only [compute_split_lines]

/-- Four words: two pairs when each joined pair fits, else 1+2+1. -/
theorem split_four_words (w0 w1 w2 w3 : String) (estW aw : Int) :
    compute_split_lines [w0, w1, w2, w3] estW aw =
      if ((w0 ++ " " ++ w1).length : Int) * 20 ≤ aw ∧
         ((w2 ++ " " ++ w3).length : Int) * 20 ≤ aw then
        [[w0, w1], [w2, w3]]
      else [[w0], [w1, w2], [w3]] := by
  simp only [compute_split_lines]

/-- Five or six words: midpoint 2-way split when both joined halves fit, else a
3-way split. -/
theorem split_five_six_words (ws : List String) (estW aw : Int)
    (h : ws.length = 5 ∨ ws.length = 6) :
    (((String.intercalate " " (ws.take (ws.length / 2))).length : Int) * 20 ≤ aw ∧
      ((String.intercalate " " (ws.drop (ws.length / 2))).length : Int) * 20 ≤ aw →
      compute_split_lines ws estW aw = [ws.take (ws.length / 2), ws.drop (ws.length / 2)]) ∧
    (¬(((String.intercalate " " (ws.take (ws.length / 2))).length : Int) * 20 ≤ aw ∧
        ((String.intercalate " " (ws.drop (ws.length / 2))).length : Int) * 20 ≤ aw) →
      (compute_split_lines ws estW aw).length = 3) := by
  rcases ws with _ | ⟨a, _ | ⟨b, _ | ⟨c, _ | ⟨d, _ | ⟨e, tl⟩⟩⟩⟩⟩ <;>
    simp only [List.length_nil, List.length_cons] at h <;> try omega
  rcases tl with _ | ⟨f, tl2⟩
  · constructor <;> intro hfit <;>
      simp only [compute_split_lines] <;>
      rw [if_pos (by simp)] <;> split
    · rfl
    · next hc => exact absurd hfit hc
    · next hc => exact absurd hc hfit
    · rfl
  · have htl : tl2 = [] := by
      simp only [List.length_cons] at h
      rcases h with h5 | h6
      · omega
      · exact List.length_eq_zero.mp (by omega)
    subst htl
    constructor <;> intro hfit <;>
      simp only [compute_split_lines] <;>
      rw [if_pos (by simp)] <;> split
    · rfl
    · next hc => exact absurd hfit hc
    · next hc => exact absurd hc hfit
    · rfl

/-- More than six words: always a 4-way split. -/
theorem split_over_six_words (ws : List String) (estW aw : Int) (h : 6 < ws.length) :
    (compute_split_lines ws estW aw).length = 4 := by
  rcases ws with _ | ⟨a, _ | ⟨b, _ | ⟨c, _ | ⟨d, _ | ⟨e, _ | ⟨f, _ | ⟨g, tl⟩⟩⟩⟩⟩⟩⟩ <;>
    simp only [List.length_nil, List.length_cons] at h <;> try omega
  simp only [compute_split_lines, List.length_cons]
  rw [if_neg (by omega)]
  rw [if_pos (by omega)]
  rfl

/-- Evaluation of the 150x120 fixture: the two-word label splits into two
emitted lines with the shrunken 24px font. -/
theorem admin_office_render :
    render_room_label admin_office_room =
      LabelRender.multi 24 [(57.5, "Administrative"), (86.5, "Office")] := by
  have hrot : should_rotate_text "Administrative Office" 150 120 = false := by decide
  have hsplit : pySplit "Administrative Office" = ["Administrative", "Office"] := by decide
  have e0 : ("Administrative Office" = "") = False := by decide
  have e1 : "Administrative Office".length = 21 := by decide
  have e2 : "Administrative".length = 14 := by decide
  have e3 : "Office".length = 6 := by decide
  have e5 : String.intercalate " " ["Administrative"] = "Administrative" := by decide
  have e6 : String.intercalate " " ["Office"] = "Office" := by decide
  simp only [render_room_label, admin_office_room, hrot, hsplit, e0, if_false, e1]
  norm_num [compute_split_lines, e2, e3]
  rw [e5, e6]
  norm_num [multi_layout, emit_lines, emit_lines_go, pyInt]

/-- Claim C2: a labeled non-rotated room is split into multiple lines iff
`len(label) * 20 > room_width - 80` and the label has several words; the split
is keyed to the word count (2 and 3 words one per line, 4 words two pairs when
each fits else 1+2+1, 5-6 words an even midpoint split when both halves fit
else 3 lines, over 6 words 4 lines); and a 150px-wide room labeled
"Administrative Office" yields two text lines. -/
theorem claim2_multiline_split_rule :
    (∀ r : RoomData, r.label ≠ "" → should_rotate_text r.label r.w r.h = false →
      ((∃ f em, render_room_label r = LabelRender.multi f em) ↔
        (r.label.length : Int) * 20 > r.w - 80 ∧ 1 < (pySplit r.label).length)) ∧
    (∀ w0 w1 estW aw, estW > aw → compute_split_lines [w0, w1] estW aw = [[w0], [w1]]) ∧
    (∀ w0 w1 w2 estW aw, compute_split_lines [w0, w1, w2] estW aw = [[w0], [w1], [w2]]) ∧
    (∀ w0 w1 w2 w3 estW aw, compute_split_lines [w0, w1, w2, w3] estW aw =
      if ((w0 ++ " " ++ w1).length : Int) * 20 ≤ aw ∧
         ((w2 ++ " " ++ w3).length : Int) * 20 ≤ aw then
        [[w0, w1], [w2, w3]]
      else [[w0], [w1, w2], [w3]]) ∧
    (∀ ws estW aw, ws.length = 5 ∨ ws.length = 6 →
      (((String.intercalate " " (ws.take (ws.length / 2))).length : Int) * 20 ≤ aw ∧
        ((String.intercalate " " (ws.drop (ws.length / 2))).length : Int) * 20 ≤ aw →
        compute_split_lines ws estW aw = [ws.take (ws.length / 2), ws.drop (ws.length / 2)]) ∧
      (¬(((String.intercalate " " (ws.take (ws.length / 2))).length : Int) * 20 ≤ aw ∧
          ((String.intercalate " " (ws.drop (ws.length / 2))).length : Int) * 20 ≤ aw) →
        (compute_split_lines ws estW aw).length = 3)) ∧
    (∀ ws estW aw, 6 < ws.length → (compute_split_lines ws estW aw).length = 4) ∧
    render_room_label admin_office_room =
      LabelRender.multi 24 [(57.5, "Administrative"), (86.5, "Office")] :=
  ⟨render_multi_iff, split_two_words, split_three_words, split_four_words,
   split_five_six_words, split_over_six_words, admin_office_render⟩

/-- Witness for C2: the fixture takes the multi-line branch and the branch
condition evaluates as claimed. -/
theorem claim2_multiline_split_rule_witness :
    (∃ f em, render_room_label admin_office_room = LabelRender.multi f em) ∧
    compute_split_lines ["Administrative", "Office"] 420 70 = [["Administrative"], ["Office"]] :=
  ⟨(claim2_multiline_split_rule.1 admin_office_room (by decide) (by decide)).mpr (by decide),
   claim2_multiline_split_rule.2.1 "Administrative" "Office" 420 70 (by decide)⟩

/-! ### Claim C3: declared output height -/

/-- Closed form of `generate_floor_svg` off the zero-width error path. -/
theorem generate_eq (spec : FloorSpec) (ow : Int) (ip : Bool) (bn : Option String)
    (fn : Option Int) (hW : canvas_w spec ≠ 0) :
    generate_floor_svg spec ow ip bn fn = some
      { view_w := canvas_w spec
        view_h := canvas_h spec + extra_height spec
        out_w := ow
        out_h := out_height spec ow
        room_elems := (build_room_by_id (spec.grid_size.getD 100) spec.rooms).map render_room
        printer_elems := (if ip then spec.printers else []).map
          (render_printer (build_room_by_id (spec.grid_size.getD 100) spec.rooms))
        title := title_text bn fn
        legend := legend_entries (canvas_w spec) (canvas_h spec) (sorted_types spec.rooms) } := by
  unfold generate_floor_svg
  rw [if_neg hW]

/-- Inversion for a successful `generate_floor_svg` run. -/
theorem generate_cases (spec : FloorSpec) (ow : Int) (ip : Bool) (bn : Option String)
    (fn : Option Int) (d : FloorDoc) (h : generate_floor_svg spec ow ip bn fn = some d) :
    canvas_w spec ≠ 0 ∧ d.out_h = out_height spec ow ∧
    d.legend = legend_entries (canvas_w spec) (canvas_h spec) (sorted_types spec.rooms) := by
  have hW : canvas_w spec ≠ 0 := by
    intro h0
    unfold generate_floor_svg at h
    rw [if_pos h0] at h
    exact Option.noConfusion h
  rw [generate_eq spec ow ip bn fn hW] at h
  have hd := Option.some.inj h
  subst hd
  exact ⟨hW, rfl, rfl⟩

/-- Amended claim C3: the declared output height is the scaled diagram height
plus the scaled title-and-legend band, with the legend row count
`ceil(k / 3)` taken over the number `k` of distinct RECOGNIZED room types of
the rooms list (the source drops types outside its ten-entry color table);
7 entries give 3 legend rows. -/
theorem claim3_output_height :
    (∀ (spec : FloorSpec) (ow : Int) (ip : Bool) (bn : Option String) (fn : Option Int)
      (d : FloorDoc), generate_floor_svg spec ow ip bn fn = some d →
      d.out_h =
        pyInt ((ow : ℚ) *
          ((spec.grid_rows.getD 14 * spec.grid_size.getD 100 : Int) : ℚ) /
          ((spec.grid_cols.getD 24 * spec.grid_size.getD 100 : Int) : ℚ)) +
        pyInt ((ow : ℚ) *
          (100 + (Int.ceil (((sorted_types spec.rooms).length : ℚ) / 3) : ℚ) * 65 + 40) /
          ((spec.grid_cols.getD 24 * spec.grid_size.getD 100 : Int) : ℚ))) ∧
    legend_num_rows 7 = 3 := by
  constructor
  · intro spec ow ip bn fn d h
    rw [(generate_cases spec ow ip bn fn d h).2.1]
    unfold out_height diagram_height extra_height legend_height canvas_w canvas_h
    have hceil : (Int.ceil (((sorted_types spec.rooms).length : ℚ) / 3) : ℚ) =
        ((legend_num_rows (sorted_types spec.rooms).length : Int) : ℚ) := by
      have := ceil_div_three (sorted_types spec.rooms).length
      rw [this]
      norm_cast
    rw [hceil]
    congr 1
    · exact congrArg pyInt (mul_div_assoc _ _ _).symm
    · apply congrArg pyInt
      push_cast
      ring
  · rfl

/-- Counterexample to C3 as stated: with one room of unrecognized type
"kitchen", the source counts zero legend entries (height 1540), while the
formula of the claim over the distinct types present counts one (height 1605). -/
theorem claim3_output_height_cex :
    (generate_floor_svg kitchen_spec 2400 false none none).map FloorDoc.out_h = some 1540 ∧
    pyInt ((2400 : ℚ) *
        ((kitchen_spec.grid_rows.getD 14 * kitchen_spec.grid_size.getD 100 : Int) : ℚ) /
        ((kitchen_spec.grid_cols.getD 24 * kitchen_spec.grid_size.getD 100 : Int) : ℚ)) +
      pyInt ((2400 : ℚ) *
        (100 + (Int.ceil (((distinct_room_types kitchen_spec.rooms).length : ℚ) / 3) : ℚ) * 65 + 40) /
        ((kitchen_spec.grid_cols.getD 24 * kitchen_spec.grid_size.getD 100 : Int) : ℚ)) = 1605 ∧
    (1540 : Int) ≠ 1605 := by
  refine ⟨?_, ?_, by decide⟩
  · rw [generate_eq kitchen_spec 2400 false none none (by decide)]
    have hsorted : sorted_types kitchen_spec.rooms = [] := by decide
    simp only [Option.map_some']
    congr 1
    unfold out_height diagram_height extra_height legend_height canvas_w canvas_h
    rw [hsorted]
    norm_num [pyInt, legend_num_rows, kitchen_spec]
  · have hdist : (distinct_room_types kitchen_spec.rooms).length = 1 := by decide
    rw [hdist]
    have hceil : Int.ceil ((1 : ℚ) / 3) = 1 := by
      have := ceil_div_three 1
      norm_num at this
      exact_mod_cast this
    norm_num [hceil, pyInt, kitchen_spec]

/-- Evaluation of the empty default-grid spec. -/
theorem generate_plain_spec :
    generate_floor_svg plain_spec 2400 false none none = some
      { view_w := 2400, view_h := 1540, out_w := 2400, out_h := 1540,
        room_elems := [], printer_elems := [], title := none, legend := [] } := by
  rw [generate_eq plain_spec 2400 false none none (by decide)]
  have hsorted : sorted_types plain_spec.rooms = [] := by decide
  simp only [Option.some.injEq, FloorDoc.mk.injEq]
  refine ⟨by decide, ?_, trivial, ?_, rfl, rfl, rfl, ?_⟩
  · show canvas_h plain_spec + extra_height plain_spec = 1540
    unfold extra_height legend_height
    rw [hsorted]
    decide
  · unfold out_height diagram_height extra_height legend_height canvas_w canvas_h
    rw [hsorted]
    norm_num [pyInt, legend_num_rows, plain_spec]
  · rw [hsorted]
    rfl

/-- Witness for C3 at the empty default spec. -/
theorem claim3_output_height_witness :
    (1540 : Int) =
      pyInt ((2400 : ℚ) *
        ((plain_spec.grid_rows.getD 14 * plain_spec.grid_size.getD 100 : Int) : ℚ) /
        ((plain_spec.grid_cols.getD 24 * plain_spec.grid_size.getD 100 : Int) : ℚ)) +
      pyInt ((2400 : ℚ) *
        (100 + (Int.ceil (((sorted_types plain_spec.rooms).length : ℚ) / 3) : ℚ) * 65 + 40) /
        ((plain_spec.grid_cols.getD 24 * plain_spec.grid_size.getD 100 : Int) : ℚ)) :=
  claim3_output_height.1 plain_spec 2400 false none none _ generate_plain_spec

/-! ### Claim C4: legend entries -/

/-- Every type of `legend_order` has a color (so the color filter never drops
a priority-list type). -/
theorem legend_order_recognized :
    ∀ t ∈ legend_order, (List.lookup t ROOM_COLORS).isSome = true := by decide

/-- Membership form of `List.contains`. -/
theorem contains_iff_mem (l : List String) (a : String) : l.contains a = true ↔ a ∈ l := by
  show l.elem a = true ↔ a ∈ l
  exact List.elem_iff

/-- Mapping a first-component function over an enumeration. -/
theorem enum_map_fst_comp {β : Type} (g : Nat → β) (l : List String) :
    l.enum.map (fun p => g p.1) = (List.range l.length).map g := by
  rw [show (fun p : Nat × String => g p.1) = (g ∘ Prod.fst) from rfl, ← List.map_map,
    List.enum_map_fst]

/-- Mapping a second-component function over an enumeration. -/
theorem enum_map_snd_comp {β : Type} (g : String → β) (l : List String) :
    l.enum.map (fun p => g p.2) = l.map g := by
  rw [show (fun p : Nat × String => g p.2) = (g ∘ Prod.snd) from rfl, ← List.map_map,
    List.enum_map_snd]

/-- Amended claim C4: the legend lists exactly the distinct RECOGNIZED room
types present in the rooms list (a record without a type counting as corridor;
types outside the ten-entry color table are dropped), deduplicated, in the
order of the fixed priority list, in a 3-column grid with row height 65px,
each entry carrying the color and display name of its type. -/
theorem claim4_legend_entries :
    (∀ rooms : List RoomRec, List.Sublist (sorted_types rooms) legend_order) ∧
    (∀ (rooms : List RoomRec) (t : String),
      t ∈ sorted_types rooms ↔ t ∈ legend_order ∧ t ∈ rooms.map room_type_of) ∧
    (∀ rooms : List RoomRec, (sorted_types rooms).Nodup) ∧
    (∀ (W H : Int) (ts : List String),
      (legend_entries W H ts).map LegendEntry.name = ts.map display_name ∧
      (legend_entries W H ts).map LegendEntry.color = ts.map get_room_color ∧
      (legend_entries W H ts).map LegendEntry.text_y =
        (List.range ts.length).map (fun i => (H : ℚ) + 100 + 40 + ((i / 3 : Nat) : ℚ) * 65) ∧
      (legend_entries W H ts).map LegendEntry.square_x =
        (List.range ts.length).map
          (fun i => ((i % 3 : Nat) : ℚ) * ((W : ℚ) / 3) + (W : ℚ) / 6 - 110)) := by
  refine ⟨fun rooms => List.filter_sublist legend_order, ?_, ?_, ?_⟩
  · intro rooms t
    simp only [sorted_types, List.mem_filter, contains_iff_mem, unique_room_types,
      List.mem_dedup]
    constructor
    · rintro ⟨h1, h2, h3⟩
      exact ⟨h1, h2⟩
    · rintro ⟨h1, h2⟩
      exact ⟨h1, h2, legend_order_recognized t h1⟩
  · intro rooms
    exact (by decide : legend_order.Nodup).filter _
  · intro W H ts
    refine ⟨?_, ?_, ?_, ?_⟩
    · simp only [legend_entries, List.map_map]
      rw [show (LegendEntry.name ∘ fun p : Nat × String => legend_entry W H p.1 p.2) =
        (fun p : Nat × String => display_name p.2) from rfl]
      exact enum_map_snd_comp display_name ts
    · simp only [legend_entries, List.map_map]
      rw [show (LegendEntry.color ∘ fun p : Nat × String => legend_entry W H p.1 p.2) =
        (fun p : Nat × String => get_room_color p.2) from rfl]
      exact enum_map_snd_comp get_room_color ts
    · simp only [legend_entries, List.map_map]
      rw [show (LegendEntry.text_y ∘ fun p : Nat × String => legend_entry W H p.1 p.2) =
        (fun p : Nat × String => (H : ℚ) + 100 + 40 + ((p.1 / 3 : Nat) : ℚ) * 65) from rfl]
      exact enum_map_fst_comp (fun i => (H : ℚ) + 100 + 40 + ((i / 3 : Nat) : ℚ) * 65) ts
    · simp only [legend_entries, List.map_map]
      rw [show (LegendEntry.square_x ∘ fun p : Nat × String => legend_entry W H p.1 p.2) =
        (fun p : Nat × String => ((p.1 % 3 : Nat) : ℚ) * ((W : ℚ) / 3) + (W : ℚ) / 6 - 110)
        from funext fun p => by simp only [Function.comp_apply, legend_entry]; ring]
      exact enum_map_fst_comp
        (fun i => ((i % 3 : Nat) : ℚ) * ((W : ℚ) / 3) + (W : ℚ) / 6 - 110) ts

/-- Counterexample to C4 as stated: the type "kitchen" occurs in the rooms
list but the emitted legend is empty, so the entries are not the distinct
types present. -/
theorem claim4_legend_entries_cex :
    "kitchen" ∈ distinct_room_types kitchen_spec.rooms ∧
    (generate_floor_svg kitchen_spec 2400 false none none).map
        (fun d => d.legend.map LegendEntry.name) = some [] := by
  refine ⟨by decide, ?_⟩
  rw [generate_eq kitchen_spec 2400 false none none (by decide)]
  have hsorted : sorted_types kitchen_spec.rooms = [] := by decide
  simp only [Option.map_some', Option.some.injEq]
  rw [hsorted]
  rfl

/-! ### Claim C5: single-line font floor and margins -/

/-- Evaluation of the 150x150 fixture: single-line branch, font size 18. -/
theorem square_lab_render :
    render_room_label square_lab_room = LabelRender.single 75 75 18 "Laboratory" := by
  have hrot : should_rotate_text "Laboratory" 150 150 = false := by decide
  have hsplit : pySplit "Laboratory" = ["Laboratory"] := by decide
  have e0 : ("Laboratory" = "") = False := by decide
  have e1 : "Laboratory".length = 10 := by decide
  simp only [render_room_label, square_lab_room, hrot, hsplit, e0, if_false, e1]
  norm_num [single_line_font_size, single_line_text_y, pyInt]

/-- Counterexample to C5 as stated: a 150x150 room with the 10-character
one-word label "Laboratory" takes the single-line branch and renders with font
size 18, below the claimed 20px floor (the floor only exists in the small-room
branch). -/
theorem claim5_single_line_cex :
    render_room_label square_lab_room = LabelRender.single 75 75 18 "Laboratory" ∧
    (18 : Int) < 20 :=
  ⟨square_lab_render, by norm_num⟩

/-- The small-room branch clamps the font size at 20. -/
theorem single_font_floor_small (w h : Int) (len : Nat) (hs : w < 150 ∨ h < 150) :
    20 ≤ single_line_font_size w h len := by
  simp only [single_line_font_size]
  rw [if_pos hs]
  split
  · exact le_refl 20
  · next hc => exact Int.not_lt.mp hc

/-- After both clamps the baseline respects the bottom 20px margin. -/
theorem single_bottom_margin (y h f : Int) :
    single_line_text_y y h f + (f : ℚ) / 2 ≤ (y : ℚ) + (h : ℚ) - 20 := by
  simp only [single_line_text_y]
  split <;> split <;> linarith

/-- When the font fits vertically, the final position also respects the top
20px margin. -/
theorem single_top_margin (y h f : Int) (hf : (f : ℚ) ≤ (h : ℚ) - 40) :
    (y : ℚ) + 20 ≤ single_line_text_y y h f - (f : ℚ) / 2 := by
  simp only [single_line_text_y]
  split <;> split <;> linarith

/-- Amended claim C5: in the single-line branch, the 20px font floor holds in
the small-room branch (`w < 150` or `h < 150`) but not in general; the final
baseline always respects the bottom 20px margin, and also the top margin
whenever the font size is at most `room_height - 40`. -/
theorem claim5_single_line (r : RoomData) (x ty : ℚ) (f : Int) (c : String)
    (h : render_room_label r = LabelRender.single x ty f c) :
    ((r.w < 150 ∨ r.h < 150) → 20 ≤ f) ∧
    (ty + (f : ℚ) / 2 ≤ (r.y : ℚ) + (r.h : ℚ) - 20) ∧
    ((f : ℚ) ≤ (r.h : ℚ) - 40 → (r.y : ℚ) + 20 ≤ ty - (f : ℚ) / 2) := by
  simp only [render_room_label] at h
  split at h
  · exact absurd h (by simp)
  · split at h
    · exact absurd h (by simp)
    · split at h
      · exact absurd h (by simp)
      · rw [LabelRender.single.injEq] at h
        obtain ⟨hx, hty, hf, hc⟩ := h
        subst hty
        subst hf
        exact ⟨fun hs => single_font_floor_small r.w r.h r.label.length hs,
               single_bottom_margin r.y r.h _,
               fun hfit => single_top_margin r.y r.h _ hfit⟩

/-- Witness for C5 at the 150x150 fixture: the bottom-margin bound. -/
theorem claim5_single_line_witness :
    (75 : ℚ) + ((18 : Int) : ℚ) / 2 ≤ (square_lab_room.y : ℚ) + (square_lab_room.h : ℚ) - 20 :=
  (claim5_single_line square_lab_room 75 75 18 "Laboratory" square_lab_render).2.1

/-! ### Claim C6: printer positioning -/

/-- Claim C6: a printer resolves against its room id; on a match the icon sits
at the room origin plus the fractional offsets (0.5 defaults), and on a miss
it sits at (0, 0) (the source returns a degenerate position instead of
raising). -/
theorem claim6_printer_position (room_list : List RoomData) (p : PrinterRec) :
    (room_lookup room_list p.room = none → printer_pos room_list p = (0, 0)) ∧
    (∀ rd : RoomData, room_lookup room_list p.room = some rd →
      printer_pos room_list p =
        ((rd.x : ℚ) + (p.grid_rx.getD (0.5 : ℚ)) * (rd.w : ℚ),
         (rd.y : ℚ) + (p.grid_ry.getD (0.5 : ℚ)) * (rd.h : ℚ))) := by
  constructor
  · intro h
    simp only [printer_pos, h]
  · intro rd h
    simp only [printer_pos, h]

/-- Witness for C6: both the missing-room and the found-room branch at
concrete fixtures. -/
theorem claim6_printer_position_witness :
    printer_pos [room_fix] p_missing = (0, 0) ∧
    printer_pos [room_fix] p_found =
      ((room_fix.x : ℚ) + (p_found.grid_rx.getD (0.5 : ℚ)) * (room_fix.w : ℚ),
       (room_fix.y : ℚ) + (p_found.grid_ry.getD (0.5 : ℚ)) * (room_fix.h : ℚ)) :=
  ⟨(claim6_printer_position [room_fix] p_missing).1 (by decide),
   (claim6_printer_position [room_fix] p_found).2 room_fix (by decide)⟩

/-! ### Claim C7: totality -/

/-- Counterexample to C7 as stated: `grid_cols = 0` makes the pixel width
zero, and the source raises `ZeroDivisionError` at
`int(output_width * (H / W))` instead of producing a document. -/
theorem claim7_totality_cex :
    generate_floor_svg zero_cols_spec 2400 false none none = none := by
  unfold generate_floor_svg
  rw [if_pos (by decide)]

/-- Amended claim C7: `generate_floor_svg` is total on well-formed records
whenever the pixel width `grid_cols * grid_size` is nonzero; zero-area rooms,
whitespace-only or missing labels, missing printer room references and
negative grid dimensions all yield a document rather than an error. -/
theorem claim7_totality (spec : FloorSpec) (ow : Int) (ip : Bool)
    (bn : Option String) (fn : Option Int)
    (hW : (spec.grid_cols.getD 24) * (spec.grid_size.getD 100) ≠ 0) :
    ∃ d, generate_floor_svg spec ow ip bn fn = some d :=
  ⟨_, generate_eq spec ow ip bn fn hW⟩

/-- Witness for C7 at the empty default spec. -/
theorem claim7_totality_witness :
    ∃ d, generate_floor_svg plain_spec 2400 false none none = some d :=
  claim7_totality plain_spec 2400 false none none (by decide)

/-! ### Claim C8: title and ordinal suffix -/

/-- Counterexample to C8 as stated: floor number 0 is supplied but Python
truthiness (`if building_name and floor_number:`) suppresses the title
entirely, so no "0th Floor" title is produced. -/
theorem claim8_title_cex :
    title_text (some "Main Academic Building") (some 0) = none ∧
    title_text (some "Main Academic Building") (some 0) ≠
      some "Main Academic Building - 0th Floor" := by
  constructor
  · rfl
  · intro h
    exact Option.noConfusion h

/-- Amended claim C8: for a non-empty building name and a nonzero floor
number, the title is `"<building_name> - <n><suffix> Floor"` with the ordinal
suffix `th` on residues 10-20 mod 100, else `st`/`nd`/`rd` for 1/2/3 mod 10,
else `th`; in particular 1st, 2nd, 3rd, 11th, 12th, 13th, 21st. -/
theorem claim8_title_ordinal :
    (∀ (b : String) (n : Int), b ≠ "" → n ≠ 0 →
      title_text (some b) (some n) =
        some (b ++ " - " ++ (toString n ++ spec_ordinal_suffix n) ++ " Floor")) ∧
    get_ordinal 1 = "1st" ∧ get_ordinal 2 = "2nd" ∧ get_ordinal 3 = "3rd" ∧
    get_ordinal 11 = "11th" ∧ get_ordinal 12 = "12th" ∧ get_ordinal 13 = "13th" ∧
    get_ordinal 21 = "21st" := by
  refine ⟨?_, by decide, by decide, by decide, by decide, by decide, by decide, by decide⟩
  intro b n hb hn
  show (if b ≠ "" ∧ n ≠ 0 then some (b ++ " - " ++ get_ordinal n ++ " Floor") else none) =
    some (b ++ " - " ++ (toString n ++ spec_ordinal_suffix n) ++ " Floor")
  rw [if_pos ⟨hb, hn⟩]
  rfl

/-- Witness for C8 at building "Science & Technology Building", floor 3. -/
theorem claim8_title_ordinal_witness :
    title_text (some "Science & Technology Building") (some 3) =
      some ("Science & Technology Building" ++ " - " ++
        (toString (3 : Int) ++ spec_ordinal_suffix 3) ++ " Floor") :=
  claim8_title_ordinal.1 "Science & Technology Building" 3 (by decide) (by decide)

/-! ### Claim C9: multi-line truncation -/

/-- The emission loop is a `takeWhile` over the enumerated line positions:
a line is kept only while its baseline plus half the font size stays within
the bottom limit, and the first failure stops everything after it. -/
theorem emit_lines_go_eq (sY lH f bot : ℚ) :
    ∀ (i : Nat) (ls : List String),
      emit_lines_go sY lH f bot i ls =
        ((List.enumFrom i ls).map (fun p => (sY + (p.1 : ℚ) * lH, p.2))).takeWhile
          (fun e => decide (e.1 + f / 2 ≤ bot)) := by
  intro i ls
  induction ls generalizing i with
  | nil => rfl
  | cons t rest ih =>
    rw [show List.enumFrom i (t :: rest) = (i, t) :: List.enumFrom (i + 1) rest from rfl]
    rw [List.map_cons, List.takeWhile_cons]
    simp only [emit_lines_go]
    by_cases hc : sY + (i : ℚ) * lH + f / 2 > bot
    · rw [if_pos hc]
      rw [show (decide ((sY + (i : ℚ) * lH, t).1 + f / 2 ≤ bot)) = false from
        decide_eq_false (not_le.mpr hc)]
      simp
    · rw [if_neg hc]
      rw [show (decide ((sY + (i : ℚ) * lH, t).1 + f / 2 ≤ bot)) = true from
        decide_eq_true (not_lt.mp hc)]
      rw [ih (i + 1)]
      simp

/-- Evaluation of the 150x130 fixture: the split computes two lines but the
baseline of the second line would pass the bottom margin, so only one is emitted. -/
theorem trunc_office_render :
    render_room_label trunc_office_room = LabelRender.multi 40 [(62.5, "Administrative")] := by
  have hrot : should_rotate_text "Administrative Office" 150 130 = false := by decide
  have hsplit : pySplit "Administrative Office" = ["Administrative", "Office"] := by decide
  have e0 : ("Administrative Office" = "") = False := by decide
  have e1 : "Administrative Office".length = 21 := by decide
  have e2 : "Administrative".length = 14 := by decide
  have e3 : "Office".length = 6 := by decide
  have e5 : String.intercalate " " ["Administrative"] = "Administrative" := by decide
  have e6 : String.intercalate " " ["Office"] = "Office" := by decide
  simp only [render_room_label, trunc_office_room, hrot, hsplit, e0, if_false, e1]
  norm_num [compute_split_lines, e2, e3]
  rw [e5, e6]
  norm_num [multi_layout, emit_lines, emit_lines_go, pyInt]

/-- Claim C9: lines are emitted as a prefix of the computed split, cut at the
first line whose baseline plus half the font size passes the bottom
margin; at the 150x130 fixture the split computes 2 lines but only 1 is
rendered. -/
theorem claim9_truncation :
    (∀ (sY lH f bot : ℚ) (ls : List String),
      emit_lines sY lH f bot ls =
        ((ls.enum).map (fun p => (sY + (p.1 : ℚ) * lH, p.2))).takeWhile
          (fun e => decide (e.1 + f / 2 ≤ bot))) ∧
    render_room_label trunc_office_room = LabelRender.multi 40 [(62.5, "Administrative")] ∧
    (compute_split_lines (pySplit trunc_office_room.label)
      ((trunc_office_room.label.length : Int) * 20) (trunc_office_room.w - 80)).length = 2 :=
  ⟨fun sY lH f bot ls => emit_lines_go_eq sY lH f bot 0 ls, trunc_office_render, by decide⟩

/-! ### Claim C10: missing type defaults to corridor -/

/-- Claim C10: a room record without a `type` key is treated as a corridor:
corridor fill `#E0E0E0`, dark text `#1a1a1a`, its rectangle is drawn even with
no label (with no text element), and `corridor` counts toward the room-type
set of the legend. -/
theorem claim10_untyped_corridor (r : RoomRec) (gs : Int) (rooms : List RoomRec)
    (ht : r.type = none) (hmem : r ∈ rooms) :
    room_type_of r = "corridor" ∧
    (room_data gs r).type = "corridor" ∧
    get_room_color (room_data gs r).type = "#E0E0E0" ∧
    get_text_color (room_data gs r).type = "#1a1a1a" ∧
    (render_room (room_data gs r)).rect.fill = "#E0E0E0" ∧
    (r.label = "" → (render_room (room_data gs r)).label = LabelRender.noLabel) ∧
    "corridor" ∈ unique_room_types rooms := by
  have h1 : room_type_of r = "corridor" := by rw [room_type_of, ht]; rfl
  have h2 : (room_data gs r).type = "corridor" := h1
  refine ⟨h1, h2, ?_, ?_, ?_, ?_, ?_⟩
  · rw [h2]; decide
  · rw [h2]; decide
  · show get_room_color (room_data gs r).type = "#E0E0E0"
    rw [h2]; decide
  · intro hlab
    show render_room_label (room_data gs r) = LabelRender.noLabel
    have : (room_data gs r).label = "" := hlab
    rw [render_room_label, if_pos this]
  · simp only [unique_room_types, List.mem_dedup, List.mem_filter]
    constructor
    · have := List.mem_map_of_mem room_type_of hmem
      rwa [h1] at this
    · decide

/-- Witness for C10 at a concrete untyped room. -/
theorem claim10_untyped_corridor_witness :
    room_type_of untyped_room = "corridor" ∧
    (room_data 100 untyped_room).type = "corridor" ∧
    get_room_color (room_data 100 untyped_room).type = "#E0E0E0" ∧
    get_text_color (room_data 100 untyped_room).type = "#1a1a1a" ∧
    (render_room (room_data 100 untyped_room)).rect.fill = "#E0E0E0" ∧
    (untyped_room.label = "" →
      (render_room (room_data 100 untyped_room)).label = LabelRender.noLabel) ∧
    "corridor" ∈ unique_room_types [untyped_room] :=
  claim10_untyped_corridor untyped_room 100 [untyped_room] rfl (List.mem_singleton.mpr rfl)
